import Mathlib

/-!
Shallow embedding of `src/panel/src/pages/PlayerDropsPage/TimelineDropsChart.tsx`.

The file models, faithfully to the TypeScript source:
* the data model `TimelineDropsChartData`;
* the `ChartLabels` legend component, including the JS-array `slice().reverse()`
  it performs (modelled on an explicit heap of arrays so that the in-place
  `reverse` mutation is visible) and the `playerDropCategories[catName]` registry
  lookups (a missing entry makes the JS property access raise, modelled as `none`);
* the `TimelineDropsChart` render function (the `null` / error-panel / chart
  branches, the retry button label, and the svg/canvas geometry);
* the redraw `useEffect` together with the React scheduling semantics it relies
  on (an effect re-runs only when its dependency list changes; refs point to the
  surfaces only while the chart branch is the committed render output), as a
  small-step machine `MState`/`step`.

Numbers coming from JS are modelled as `Int` (JS truthiness `!x` on a number is
`x = 0`, ignoring `NaN`). The external drawing routine `drawDropsTimeline` is a
black box that either returns or raises an error whose `.message` may be absent
(`Option String`); its behaviour is an input (`DrawOutcome`) of each evaluation.
-/

/-- Modelled from the spec: the entries of `log` ("ordered sequence of
time-bucketed data points", type `TimelineDropsDatum` from the external
`drawDropsTimeline` module, which is not part of this component's source).
`TimelineDropsChart` never inspects a datum (it only reads `log.length`), so a
datum is an opaque token with decidable equality. -/
structure TimelineDropsDatum where
  bucketTag : Nat
deriving DecidableEq, Repr

/-- The `TimelineDropsChartData` type from the source (dates as epoch instants). -/
structure TimelineDropsChartData where
  selectedPeriod : String
  startDate : Int
  endDate : Int
  maxDrops : Int
  categoriesSorted : List String
  log : List TimelineDropsDatum
deriving DecidableEq, Repr

/-- One entry of the external `playerDropCategories` registry. -/
structure CategoryMeta where
  label : String
  color : String
  border : String
deriving DecidableEq, Repr

/-- The registry itself is external (`@/lib/playerDropCategories`); it is passed
around as a partial map, `none` meaning the identifier has no entry (in JS the
subsequent property access on `undefined` raises a `TypeError`). -/
def Registry : Type := String → Option CategoryMeta

/-- The fixed `margins` constant of `TimelineDropsChart`. -/
structure Margins where
  top : Int
  right : Int
  bottom : Int
  left : Int
  axis : Int
deriving DecidableEq, Repr

def margins : Margins := { top := 8, right := 8, bottom := 24, left := 42, axis := 1 }

/-! ## The legend (`ChartLabels`)

`ChartLabels` receives a JS array of category names and computes
`categories.slice().reverse()`: `slice` allocates a fresh copy, `reverse`
mutates that copy in place. To make the frame effect provable we model the JS
array store explicitly: a `Heap` is a list of array contents, a reference is an
index into it. -/

/-- A store of JS string arrays; an array reference is an index into `arrs`. -/
structure Heap where
  arrs : List (List String)
deriving DecidableEq, Repr

/-- Dereference: contents of the array at reference `r` (out-of-range reads as `[]`). -/
def Heap.get (h : Heap) (r : Nat) : List String :=
  h.arrs.getD r []

/-- Overwrite the array at reference `r` in place. -/
def Heap.set (h : Heap) (r : Nat) (v : List String) : Heap :=
  ⟨h.arrs.set r v⟩

/-- JS `a.slice()`: allocate a fresh array holding a copy of `a`'s contents and
return its reference. -/
def jsSlice (h : Heap) (r : Nat) : Heap × Nat :=
  (⟨h.arrs ++ [h.get r]⟩, h.arrs.length)

/-- JS `a.reverse()`: reverse the array at `r` in place. -/
def jsReverse (h : Heap) (r : Nat) : Heap :=
  h.set r (h.get r).reverse

/-- One rendered legend row: a color swatch (fill = category color, border =
category border), the category label, and an empty value slot addressed by
`data-category={catName}`. -/
structure LegendRow where
  key : String
  swatchColor : String
  swatchBorder : String
  label : String
  valueSlotKey : String
deriving DecidableEq, Repr

/-- The row `ChartLabels` renders for one category name. -/
def rowFor (catName : String) (meta : CategoryMeta) : LegendRow :=
  { key := catName
    swatchColor := meta.color
    swatchBorder := meta.border
    label := meta.label
    valueSlotKey := catName }

/-- The `.map` body of `ChartLabels`: each category's registry entry is looked
up; a missing entry raises (the whole render aborts, `none`), matching the JS
`playerDropCategories[catName].color` access on `undefined`. -/
def mapRows (reg : Registry) : List String → Option (List LegendRow)
  | [] => some []
  | c :: cs =>
    match reg c, mapRows reg cs with
    | some meta, some rest => some (rowFor c meta :: rest)
    | _, _ => none

/-- The `ChartLabels` component on the heap: `categories.slice().reverse()` then the row map.
Returns the heap after the two array operations and the rendered rows (`none`
when a registry lookup raised). -/
def chartLabels (reg : Registry) (h : Heap) (categories : Nat) : Heap × Option (List LegendRow) :=
  let sliced := jsSlice h categories
  let h2 := jsReverse sliced.1 sliced.2
  (h2, mapRows reg (h2.get sliced.2))

/-- Heap-free value of `ChartLabels` on the contents of the categories array. -/
def chartLabelsPure (reg : Registry) (categories : List String) : Option (List LegendRow) :=
  mapRows reg categories.reverse

/-! ### Heap lemmas -/

theorem List.getD_append_length (l : List α) (a d : α) :
    (l ++ [a]).getD l.length d = a := by
  induction l with
  | nil => rfl
  | cons x xs ih => simp [ih]

theorem List.getD_append_lt (l m : List α) (r : Nat) (d : α) (hr : r < l.length) :
    (l ++ m).getD r d = l.getD r d := by
  induction l generalizing r with
  | nil => simp at hr
  | cons x xs ih =>
    cases r with
    | zero => rfl
    | succ n =>
      simp only [List.length_cons, Nat.succ_lt_succ_iff] at hr
      simpa using ih n hr

theorem List.set_append_length (l : List α) (a b : α) :
    (l ++ [a]).set l.length b = l ++ [b] := by
  induction l with
  | nil => rfl
  | cons x xs ih => simp [ih]

/-- After `slice` + in-place `reverse`, the fresh copy holds the reversed contents. -/
theorem chartLabels_copy_contents (h : Heap) (r : Nat) :
    (jsReverse (jsSlice h r).1 (jsSlice h r).2).get (jsSlice h r).2 = (h.get r).reverse := by
  simp only [jsSlice, jsReverse, Heap.get, Heap.set, List.set_append_length,
    List.getD_append_length]

/-- The two array operations leave every previously allocated array unchanged. -/
theorem chartLabels_heap_frame (h : Heap) (r r' : Nat) (hr : r' < h.arrs.length) :
    ((jsReverse (jsSlice h r).1 (jsSlice h r).2)).get r' = h.get r' := by
  simp only [jsSlice, jsReverse, Heap.get, Heap.set, List.set_append_length]
  rw [List.getD_append_lt _ _ _ _ hr]

/-! ### `mapRows` lemmas -/

theorem mapRows_total (reg : Registry) (l : List String)
    (hl : ∀ c ∈ l, (reg c).isSome) :
    ∃ rows, mapRows reg l = some rows ∧
      rows.map LegendRow.key = l ∧
      ∀ row ∈ rows, reg row.key = some ⟨row.label, row.swatchColor, row.swatchBorder⟩ ∧
        row.valueSlotKey = row.key := by
  induction l with
  | nil => exact ⟨[], rfl, rfl, by simp⟩
  | cons c cs ih =>
    obtain ⟨rest, hrest, hkeys, hrows⟩ := ih (fun x hx => hl x (List.mem_cons_of_mem c hx))
    have hc := hl c (List.mem_cons_self c cs)
    obtain ⟨meta, hmeta⟩ := Option.isSome_iff_exists.mp hc
    refine ⟨rowFor c meta :: rest, ?_, ?_, ?_⟩
    · simp [mapRows, hmeta, hrest]
    · simp [rowFor, hkeys]
    · intro row hrow
      rcases List.mem_cons.mp hrow with hrow | hrow
      · subst hrow
        exact ⟨by simpa [rowFor] using hmeta, rfl⟩
      · exact hrows row hrow

theorem mapRows_eq_some (reg : Registry) (l : List String) (rows : List LegendRow)
    (h : mapRows reg l = some rows) :
    rows.map LegendRow.key = l ∧
      ∀ row ∈ rows, reg row.key = some ⟨row.label, row.swatchColor, row.swatchBorder⟩ ∧
        row.valueSlotKey = row.key := by
  induction l generalizing rows with
  | nil =>
    simp only [mapRows] at h
    cases h
    exact ⟨rfl, by simp⟩
  | cons c cs ih =>
    simp only [mapRows] at h
    cases hc : reg c with
    | none => rw [hc] at h; cases h
    | some meta =>
      rw [hc] at h
      cases hcs : mapRows reg cs with
      | none => rw [hcs] at h; cases h
      | some rest =>
        rw [hcs] at h
        cases h
        obtain ⟨hkeys, hrows⟩ := ih rest hcs
        refine ⟨by simp [rowFor, hkeys], ?_⟩
        intro row hrow
        rcases List.mem_cons.mp hrow with hrow | hrow
        · subst hrow
          exact ⟨by simpa [rowFor] using hc, rfl⟩
        · exact hrows row hrow

theorem mapRows_none_of_missing (reg : Registry) (l : List String) (c : String)
    (hc : c ∈ l) (hmiss : reg c = none) :
    mapRows reg l = none := by
  induction l with
  | nil => cases hc
  | cons x xs ih =>
    rcases List.mem_cons.mp hc with h | h
    · subst h
      simp [mapRows, hmiss]
    · cases hx : reg x with
      | none => simp [mapRows, hx]
      | some meta => simp [mapRows, hx, ih h]

/-! ## The component's reactive state machine

`TimelineDropsChart` props are `(chartData, width, height)`; `isDarkMode` comes
from a hook and is a tracked input like a prop. The component state is
`renderError` / `errorRetry` plus React's record of the last dependency list of
the redraw `useEffect` (deps: `[chartData, width, height, isDarkMode, legendRef,
svgRef, canvasRef, renderError]`; the three ref objects are stable for the whole
component life, so only `(chartData, width, height, isDarkMode, renderError)`
can make the deps differ). `drawCount`/`drawLog` instrument the calls to the
external `drawDropsTimeline`. -/

/-- The tracked inputs: props plus the theme hook value. -/
structure Inputs where
  chartData : TimelineDropsChartData
  width : Int
  height : Int
  isDarkMode : Bool
deriving DecidableEq, Repr

/-- The value-relevant part of the effect's dependency list. -/
structure Deps where
  inputs : Inputs
  renderError : String
deriving DecidableEq, Repr

/-- The argument record of one `drawDropsTimeline` call (the ref handles and the
`setRenderError` callback are omitted: refs are opaque and the callback is the
state updater itself). -/
structure DrawCall where
  width : Int
  height : Int
  chartMargins : Margins
  isDarkMode : Bool
  data : TimelineDropsChartData
deriving DecidableEq, Repr

/-- Behaviour of the external `drawDropsTimeline` on one call: return normally,
or raise an error whose `.message` is `m` (`none` when the thrown value has no
message, in which case `(error as Error).message ?? 'Unknown error.'` falls
back). -/
inductive DrawOutcome where
  | success
  | failure (m : Option String)
deriving DecidableEq, Repr

/-- Component state between evaluation cycles. -/
structure MState where
  props : Inputs
  renderError : String
  errorRetry : Nat
  lastDeps : Option Deps
  drawCount : Nat
  drawLog : List DrawCall
deriving DecidableEq, Repr

def currentDeps (s : MState) : Deps := ⟨s.props, s.renderError⟩

/-- React's commit rule for this component: the three surface refs
(`legendRef`, `svgRef`, `canvasRef`) are non-null exactly while the chart branch
is the committed output, i.e. `width` and `height` are truthy and `renderError`
is falsy (otherwise the component returned `null` or the error panel and the
surfaces are unmounted). -/
def RefsPresent (s : MState) : Prop :=
  s.props.width ≠ 0 ∧ s.props.height ≠ 0 ∧ s.renderError = ""

instance (s : MState) : Decidable (RefsPresent s) := by
  unfold RefsPresent; infer_instance

/-- The effect's dependency list is unchanged since its last run, so React will
not re-run it. -/
def Quiescent (s : MState) : Prop :=
  s.lastDeps = some (currentDeps s)

instance (s : MState) : Decidable (Quiescent s) := by
  unfold Quiescent; infer_instance

def mkDrawCall (s : MState) : DrawCall :=
  { width := s.props.width
    height := s.props.height
    chartMargins := margins
    isDarkMode := s.props.isDarkMode
    data := s.props.chartData }

/-- One pass of React's effect phase: if the deps changed since the last run,
run the `useEffect` body, which is

    if (!chartData || !legendRef.current || !svgRef.current || !canvasRef.current
        || !width || !height) return;
    if (!chartData.log.length) return;
    try {
      drawDropsTimeline({...});
      setErrorRetry(0);
      setRenderError('');
    } catch (error) {
      setRenderError((error as Error).message ?? 'Unknown error.');
    }

(`chartData` is a required prop and always present; truthiness of a JS number is
`≠ 0`.) -/
def runEffect (s : MState) (o : DrawOutcome) : MState :=
  if Quiescent s then s
  else if ¬ RefsPresent s ∨ s.props.width = 0 ∨ s.props.height = 0 then
    { s with lastDeps := some (currentDeps s) }
  else if s.props.chartData.log.length = 0 then
    { s with lastDeps := some (currentDeps s) }
  else
    match o with
    | .success =>
      { s with
        lastDeps := some (currentDeps s)
        drawCount := s.drawCount + 1
        drawLog := s.drawLog ++ [mkDrawCall s]
        errorRetry := 0
        renderError := "" }
    | .failure m =>
      { s with
        lastDeps := some (currentDeps s)
        drawCount := s.drawCount + 1
        drawLog := s.drawLog ++ [mkDrawCall s]
        renderError := m.getD "Unknown error." }

/-- Run the effect phase to quiescence (a state update made by the effect body
re-renders and re-runs the effect; two passes always reach a fixed point, see
`settle_quiescent`). -/
def settle (s : MState) (o : DrawOutcome) : MState :=
  runEffect (runEffect s o) o

/-- The render output has committed the error panel: `width`/`height` truthy and
`renderError` non-empty, so the retry button exists on screen. -/
def ErrorPanelShown (s : MState) : Prop :=
  s.props.width ≠ 0 ∧ s.props.height ≠ 0 ∧ s.renderError ≠ ""

instance (s : MState) : Decidable (ErrorPanelShown s) := by
  unfold ErrorPanelShown; infer_instance

/-- External stimuli between evaluation cycles: the tracked inputs change
(parent passes new props / theme flips), or the user clicks the retry button.
Each stimulus carries the behaviour the external drawing routine would have on
a draw performed during the resulting effect phase. -/
inductive Event where
  | inputsChange (i : Inputs) (o : DrawOutcome)
  | retryClick (o : DrawOutcome)

/-- One full cycle: apply the stimulus, then let React render and run effects to
quiescence. The retry button's `onClick` is
`setErrorRetry(c => c + 1); setRenderError('')`; it can only fire while the
error panel is committed. -/
def step (s : MState) : Event → MState
  | .inputsChange i o => settle { s with props := i } o
  | .retryClick o =>
    if ErrorPanelShown s then
      settle { s with errorRetry := s.errorRetry + 1, renderError := "" } o
    else s

/-- Freshly mounted component: empty error, zero retries, effect never ran. -/
def initState (i : Inputs) : MState :=
  { props := i, renderError := "", errorRetry := 0, lastDeps := none
    drawCount := 0, drawLog := [] }

/-! ## The render function -/

/-- Geometry of an absolutely positioned surface. -/
structure SurfaceSpec where
  width : Int
  height : Int
  top : Int
  left : Int
deriving DecidableEq, Repr

/-- What one evaluation of `TimelineDropsChart` returns: `null`, the error
panel (its text and the retry button label), or the chart markup (legend rows —
`none` if a registry lookup raised — and the svg and canvas geometry). -/
inductive RenderOutput where
  | null
  | errorPanel (text : String) (retryButtonLabel : String)
  | chart (legend : Option (List LegendRow)) (svg : SurfaceSpec) (canvas : SurfaceSpec)
deriving DecidableEq, Repr

/-- The body of `TimelineDropsChart` after the hooks:

    if (!width || !height) return null;
    if (renderError) return <...>Render Error: {renderError}<Button>Retry{errorRetry ? ` (${errorRetry})` : ''}</Button></...>;
    return <><div ref={legendRef}...><ChartLabels/></div><svg .../><canvas .../></>;
-/
def render (reg : Registry) (s : MState) : RenderOutput :=
  if s.props.width = 0 ∨ s.props.height = 0 then .null
  else if s.renderError ≠ "" then
    .errorPanel ("Render Error: " ++ s.renderError)
      ("Retry" ++ (if s.errorRetry ≠ 0 then " (" ++ toString s.errorRetry ++ ")" else ""))
  else
    .chart (chartLabelsPure reg s.props.chartData.categoriesSorted)
      { width := s.props.width, height := s.props.height, top := 0, left := 0 }
      { width := s.props.width - margins.left - margins.right
        height := s.props.height - margins.top - margins.bottom
        top := margins.top, left := margins.left }

/-! ## Machine lemmas -/

/-- The inputs at which the effect body reaches the draw call (all surfaces
mounted and data present). -/
def GoodInputs (i : Inputs) : Prop :=
  i.width ≠ 0 ∧ i.height ≠ 0 ∧ i.chartData.log.length ≠ 0

instance (i : Inputs) : Decidable (GoodInputs i) := by
  unfold GoodInputs; infer_instance

theorem runEffect_of_quiescent (s : MState) (o : DrawOutcome) (h : Quiescent s) :
    runEffect s o = s := by
  unfold runEffect
  rw [if_pos h]

theorem runEffect_skip (s : MState) (o : DrawOutcome) (hq : ¬ Quiescent s)
    (hskip : ¬ RefsPresent s ∨ s.props.width = 0 ∨ s.props.height = 0 ∨
      s.props.chartData.log.length = 0) :
    runEffect s o = { s with lastDeps := some (currentDeps s) } := by
  unfold runEffect
  rw [if_neg hq]
  by_cases hg : ¬ RefsPresent s ∨ s.props.width = 0 ∨ s.props.height = 0
  · rw [if_pos hg]
  · rw [if_neg hg]
    rcases hskip with h | h | h | h
    · exact absurd (Or.inl h) hg
    · exact absurd (Or.inr (Or.inl h)) hg
    · exact absurd (Or.inr (Or.inr h)) hg
    · rw [if_pos h]

theorem runEffect_success (s : MState) (hq : ¬ Quiescent s) (hr : RefsPresent s)
    (hl : s.props.chartData.log.length ≠ 0) :
    runEffect s .success =
      { s with
        lastDeps := some (currentDeps s)
        drawCount := s.drawCount + 1
        drawLog := s.drawLog ++ [mkDrawCall s]
        errorRetry := 0
        renderError := "" } := by
  unfold runEffect
  rw [if_neg hq, if_neg (by push_neg; exact ⟨hr, hr.1, hr.2.1⟩), if_neg hl]

theorem runEffect_failure (s : MState) (m : Option String) (hq : ¬ Quiescent s)
    (hr : RefsPresent s) (hl : s.props.chartData.log.length ≠ 0) :
    runEffect s (.failure m) =
      { s with
        lastDeps := some (currentDeps s)
        drawCount := s.drawCount + 1
        drawLog := s.drawLog ++ [mkDrawCall s]
        renderError := m.getD "Unknown error." } := by
  unfold runEffect
  rw [if_neg hq, if_neg (by push_neg; exact ⟨hr, hr.1, hr.2.1⟩), if_neg hl]

theorem settle_of_quiescent (s : MState) (o : DrawOutcome) (h : Quiescent s) :
    settle s o = s := by
  unfold settle
  rw [runEffect_of_quiescent s o h, runEffect_of_quiescent s o h]

theorem settle_skip (s : MState) (o : DrawOutcome) (hq : ¬ Quiescent s)
    (hskip : ¬ RefsPresent s ∨ s.props.width = 0 ∨ s.props.height = 0 ∨
      s.props.chartData.log.length = 0) :
    settle s o = { s with lastDeps := some (currentDeps s) } := by
  unfold settle
  rw [runEffect_skip s o hq hskip]
  exact runEffect_of_quiescent _ o (by simp [Quiescent, currentDeps])

theorem settle_success (s : MState) (hq : ¬ Quiescent s) (hr : RefsPresent s)
    (hl : s.props.chartData.log.length ≠ 0) :
    settle s .success =
      { s with
        lastDeps := some ⟨s.props, ""⟩
        drawCount := s.drawCount + 1
        drawLog := s.drawLog ++ [mkDrawCall s]
        errorRetry := 0
        renderError := "" } := by
  unfold settle
  rw [runEffect_success s hq hr hl]
  have h2 := runEffect_of_quiescent
    { s with
      lastDeps := some (currentDeps s)
      drawCount := s.drawCount + 1
      drawLog := s.drawLog ++ [mkDrawCall s]
      errorRetry := 0
      renderError := "" }
    DrawOutcome.success (by simp [Quiescent, currentDeps, hr.2.2])
  rw [h2]
  simp [currentDeps, hr.2.2]

theorem settle_failure (s : MState) (m : Option String) (hq : ¬ Quiescent s)
    (hr : RefsPresent s) (hl : s.props.chartData.log.length ≠ 0) :
    settle s (.failure m) =
      { s with
        lastDeps := some ⟨s.props, m.getD "Unknown error."⟩
        drawCount := s.drawCount + 1
        drawLog := s.drawLog ++ [mkDrawCall s]
        renderError := m.getD "Unknown error." } := by
  unfold settle
  rw [runEffect_failure s m hq hr hl]
  by_cases he : m.getD "Unknown error." = ""
  · have h2 := runEffect_of_quiescent
      { s with
        lastDeps := some (currentDeps s)
        drawCount := s.drawCount + 1
        drawLog := s.drawLog ++ [mkDrawCall s]
        renderError := m.getD "Unknown error." }
      (DrawOutcome.failure m) (by simp [Quiescent, currentDeps, hr.2.2, he])
    rw [h2]
    simp [currentDeps, hr.2.2, he]
  · have h2 := runEffect_skip
      { s with
        lastDeps := some (currentDeps s)
        drawCount := s.drawCount + 1
        drawLog := s.drawLog ++ [mkDrawCall s]
        renderError := m.getD "Unknown error." }
      (DrawOutcome.failure m)
      (by simp [Quiescent, currentDeps, hr.2.2]; exact fun h => absurd h.symm he)
      (Or.inl (by simp [RefsPresent]; intro _ _; exact he))
    rw [h2]
    simp [currentDeps]

theorem settle_quiescent (s : MState) (o : DrawOutcome) : Quiescent (settle s o) := by
  by_cases hq : Quiescent s
  · rw [settle_of_quiescent s o hq]; exact hq
  · by_cases hg : ¬ RefsPresent s ∨ s.props.width = 0 ∨ s.props.height = 0 ∨
        s.props.chartData.log.length = 0
    · rw [settle_skip s o hq hg]; simp [Quiescent, currentDeps]
    · push_neg at hg
      obtain ⟨hr, hw, hh, hl⟩ := hg
      cases o with
      | success => rw [settle_success s hq hr hl]; simp [Quiescent, currentDeps]
      | failure m => rw [settle_failure s m hq hr hl]; simp [Quiescent, currentDeps]

theorem settle_drawCount_le (s : MState) (o : DrawOutcome) :
    (settle s o).drawCount ≤ s.drawCount + 1 := by
  by_cases hq : Quiescent s
  · rw [settle_of_quiescent s o hq]; exact Nat.le_succ _
  · by_cases hg : ¬ RefsPresent s ∨ s.props.width = 0 ∨ s.props.height = 0 ∨
        s.props.chartData.log.length = 0
    · rw [settle_skip s o hq hg]; exact Nat.le_succ _
    · push_neg at hg
      obtain ⟨hr, hw, hh, hl⟩ := hg
      cases o with
      | success => rw [settle_success s hq hr hl]
      | failure m => rw [settle_failure s m hq hr hl]

theorem settle_draw_on_change (s : MState) (o : DrawOutcome) (hq : ¬ Quiescent s)
    (hr : RefsPresent s) (hl : s.props.chartData.log.length ≠ 0) :
    (settle s o).drawCount = s.drawCount + 1 := by
  cases o with
  | success => rw [settle_success s hq hr hl]
  | failure m => rw [settle_failure s m hq hr hl]

theorem step_drawCount_le (s : MState) (e : Event) :
    (step s e).drawCount ≤ s.drawCount + 1 := by
  cases e with
  | inputsChange i o => exact settle_drawCount_le { s with props := i } o
  | retryClick o =>
    simp only [step]
    by_cases hp : ErrorPanelShown s
    · rw [if_pos hp]
      exact settle_drawCount_le { s with errorRetry := s.errorRetry + 1, renderError := "" } o
    · rw [if_neg hp]; exact Nat.le_succ _

theorem step_quiescent (s : MState) (e : Event) (hq : Quiescent s) :
    Quiescent (step s e) := by
  cases e with
  | inputsChange i o => exact settle_quiescent { s with props := i } o
  | retryClick o =>
    simp only [step]
    by_cases hp : ErrorPanelShown s
    · rw [if_pos hp]
      exact settle_quiescent { s with errorRetry := s.errorRetry + 1, renderError := "" } o
    · rw [if_neg hp]; exact hq

/-! ## Concrete sample values used to witness the theorems -/

def sampleData : TimelineDropsChartData :=
  { selectedPeriod := "7 days", startDate := 0, endDate := 604800000, maxDrops := 25
    categoriesSorted := ["player-initiated", "timeout"], log := [⟨0⟩, ⟨1⟩] }

def sampleInputs : Inputs :=
  { chartData := sampleData, width := 800, height := 600, isDarkMode := true }

def sampleRegistry : Registry := fun c =>
  if c = "player-initiated" then some ⟨"Player initiated", "#f00", "#900"⟩
  else if c = "timeout" then some ⟨"Timeout", "#0f0", "#090"⟩
  else none

/-- A settled state after a successful draw on `sampleInputs`. -/
def quietState : MState :=
  { props := sampleInputs, renderError := "", errorRetry := 0
    lastDeps := some ⟨sampleInputs, ""⟩, drawCount := 1, drawLog := [] }

/-! ## Claims -/

/-- C1: from any settled state, re-evaluating with an identical `(data, size,
theme)` tuple changes nothing (in particular no second draw invocation, and
after a failed draw the error state persists with no further draw attempt until
retry or an input change, the only stimuli there are); a changed tuple that
satisfies the draw preconditions causes exactly one draw invocation; no single
stimulus ever causes more than one draw invocation; and every stimulus settles
back into a quiescent state. -/
theorem c1_single_draw_per_tuple (s : MState) (o : DrawOutcome) (hq : Quiescent s) :
    step s (Event.inputsChange s.props o) = s ∧
    (∀ i o2, GoodInputs i → i ≠ s.props → s.renderError = "" →
      (step s (Event.inputsChange i o2)).drawCount = s.drawCount + 1) ∧
    (∀ e, (step s e).drawCount ≤ s.drawCount + 1) ∧
    (∀ e, Quiescent (step s e)) := by
  refine ⟨?_, ?_, fun e => step_drawCount_le s e, fun e => step_quiescent s e hq⟩
  · show settle { s with props := s.props } o = s
    exact settle_of_quiescent s o hq
  · intro i o2 hi hne he
    show (settle { s with props := i } o2).drawCount = s.drawCount + 1
    refine settle_draw_on_change _ o2 ?_ ⟨hi.1, hi.2.1, he⟩ hi.2.2
    unfold Quiescent currentDeps at hq ⊢
    simp only
    rw [hq]
    intro hcon
    rw [Option.some_inj, Deps.mk.injEq] at hcon
    exact hne hcon.1.symm

/-- Witness for C1 at a concrete settled post-draw state. -/
theorem c1_single_draw_per_tuple_witness :
    Quiescent quietState ∧
    (step quietState (Event.inputsChange quietState.props DrawOutcome.success) = quietState ∧
      (∀ i o2, GoodInputs i → i ≠ quietState.props → quietState.renderError = "" →
        (step quietState (Event.inputsChange i o2)).drawCount = quietState.drawCount + 1) ∧
      (∀ e, (step quietState e).drawCount ≤ quietState.drawCount + 1) ∧
      (∀ e, Quiescent (step quietState e))) :=
  ⟨by decide, c1_single_draw_per_tuple quietState DrawOutcome.success (by decide)⟩

def negWidthInputs : Inputs :=
  { chartData := sampleData, width := -5, height := 600, isDarkMode := true }

/-- Counterexample to C2 as stated: a viewport with `width = -5 ≤ 0` passes the
JS truthiness guard `!width` (only `0` is falsy), so a draw attempt is made on a
freshly mounted component and the chart markup (not nothing) is rendered. -/
theorem c2_counterexample :
    negWidthInputs.width ≤ 0 ∧
    (settle (initState negWidthInputs) DrawOutcome.success).drawCount = 1 ∧
    render sampleRegistry (initState negWidthInputs) ≠ RenderOutput.null := by
  refine ⟨by decide, by decide, by decide⟩

/-- C2 (amended): the guard is JS truthiness, so for every viewport with
`width = 0` or `height = 0` (not every `width ≤ 0` / `height ≤ 0`) no draw
attempt is made, the error and retry state are untouched, and the component
renders nothing. -/
theorem c2_zero_size_no_draw (reg : Registry) (s : MState) (o : DrawOutcome)
    (h : s.props.width = 0 ∨ s.props.height = 0) :
    (settle s o).drawCount = s.drawCount ∧
    (settle s o).renderError = s.renderError ∧
    (settle s o).errorRetry = s.errorRetry ∧
    render reg (settle s o) = RenderOutput.null := by
  have hrender : ∀ t : MState, t.props.width = 0 ∨ t.props.height = 0 →
      render reg t = RenderOutput.null := by
    intro t ht
    unfold render
    rw [if_pos ht]
  by_cases hq : Quiescent s
  · rw [settle_of_quiescent s o hq]
    exact ⟨rfl, rfl, rfl, hrender s h⟩
  · rw [settle_skip s o hq (by
      rcases h with h | h
      · exact Or.inr (Or.inl h)
      · exact Or.inr (Or.inr (Or.inl h)))]
    exact ⟨rfl, rfl, rfl, hrender _ h⟩

def zeroHeightInputs : Inputs :=
  { chartData := sampleData, width := 800, height := 0, isDarkMode := false }

/-- Witness for the amended C2 at a freshly mounted zero-height viewport. -/
theorem c2_zero_size_no_draw_witness :
    ((initState zeroHeightInputs).props.width = 0 ∨
      (initState zeroHeightInputs).props.height = 0) ∧
    ((settle (initState zeroHeightInputs) DrawOutcome.success).drawCount =
        (initState zeroHeightInputs).drawCount ∧
      (settle (initState zeroHeightInputs) DrawOutcome.success).renderError =
        (initState zeroHeightInputs).renderError ∧
      (settle (initState zeroHeightInputs) DrawOutcome.success).errorRetry =
        (initState zeroHeightInputs).errorRetry ∧
      render sampleRegistry (settle (initState zeroHeightInputs) DrawOutcome.success) =
        RenderOutput.null) :=
  ⟨by decide,
    c2_zero_size_no_draw sampleRegistry (initState zeroHeightInputs) DrawOutcome.success
      (by decide)⟩

/-- C3: for every `TimelineDropsChartData` whose `log` is empty, evaluation
makes no draw attempt and leaves the error and retry state untouched: the
no-data case is never surfaced as a draw failure. -/
theorem c3_empty_log_no_draw (s : MState) (o : DrawOutcome)
    (h : s.props.chartData.log = []) :
    (settle s o).drawCount = s.drawCount ∧
    (settle s o).renderError = s.renderError ∧
    (settle s o).errorRetry = s.errorRetry := by
  by_cases hq : Quiescent s
  · rw [settle_of_quiescent s o hq]
    exact ⟨rfl, rfl, rfl⟩
  · rw [settle_skip s o hq (Or.inr (Or.inr (Or.inr (by rw [h]; rfl))))]
    exact ⟨rfl, rfl, rfl⟩

def emptyLogInputs : Inputs :=
  { chartData := { sampleData with log := [] }, width := 800, height := 600
    isDarkMode := true }

/-- Witness for C3 at a freshly mounted component whose data has an empty log. -/
theorem c3_empty_log_no_draw_witness :
    (initState emptyLogInputs).props.chartData.log = [] ∧
    ((settle (initState emptyLogInputs) DrawOutcome.success).drawCount =
        (initState emptyLogInputs).drawCount ∧
      (settle (initState emptyLogInputs) DrawOutcome.success).renderError =
        (initState emptyLogInputs).renderError ∧
      (settle (initState emptyLogInputs) DrawOutcome.success).errorRetry =
        (initState emptyLogInputs).errorRetry) :=
  ⟨by decide, c3_empty_log_no_draw (initState emptyLogInputs) DrawOutcome.success (by decide)⟩

/-- Discriminator for the error-display branch of the render output. -/
def isErrorPanel : RenderOutput → Bool
  | .errorPanel _ _ => true
  | _ => false

theorem render_eq_errorPanel (reg : Registry) (s : MState)
    (hw : s.props.width ≠ 0) (hh : s.props.height ≠ 0) (he : s.renderError ≠ "") :
    render reg s = RenderOutput.errorPanel ("Render Error: " ++ s.renderError)
      ("Retry" ++ (if s.errorRetry ≠ 0 then " (" ++ toString s.errorRetry ++ ")" else "")) := by
  unfold render
  rw [if_neg (by push_neg; exact ⟨hw, hh⟩), if_pos he]

theorem render_eq_chart (reg : Registry) (s : MState)
    (hw : s.props.width ≠ 0) (hh : s.props.height ≠ 0) (he : s.renderError = "") :
    render reg s = RenderOutput.chart (chartLabelsPure reg s.props.chartData.categoriesSorted)
      ⟨s.props.width, s.props.height, 0, 0⟩
      ⟨s.props.width - margins.left - margins.right,
       s.props.height - margins.top - margins.bottom, margins.top, margins.left⟩ := by
  unfold render
  rw [if_neg (by push_neg; exact ⟨hw, hh⟩), if_neg (by simp [he])]

/-- Counterexample to C4 as stated: the catch block stores
`(error as Error).message ?? 'Unknown error.'`, and `??` only fires on
null/undefined. A raise whose `.message` is the empty string stores `""`, so
the error state stays unset after the failure and no error panel is shown; the
generic fallback is also `"Unknown error."`, with a trailing period. -/
theorem c4_counterexample :
    (settle (initState sampleInputs) (DrawOutcome.failure (some ""))).drawCount = 1 ∧
    (settle (initState sampleInputs) (DrawOutcome.failure (some ""))).renderError = "" ∧
    isErrorPanel (render sampleRegistry
      (settle (initState sampleInputs) (DrawOutcome.failure (some "")))) = false ∧
    (settle (initState sampleInputs) (DrawOutcome.failure none)).renderError =
      "Unknown error." := by
  refine ⟨by decide, by decide, by decide, by decide⟩

/-- C4 (amended): every synchronous raise during a draw attempt stores
`(error.message ?? 'Unknown error.')` into the error state: the raised
message verbatim when one is present (including the empty string), and the
generic `"Unknown error."` text when none is available. The error-display
state is entered iff the stored message is non-empty; a raise whose message is
the empty string leaves the error state unset. -/
theorem c4_failure_message (s : MState) (m : Option String)
    (hq : ¬ Quiescent s) (hr : RefsPresent s)
    (hl : s.props.chartData.log.length ≠ 0) :
    (settle s (.failure m)).renderError = m.getD "Unknown error." ∧
    (settle s (.failure m)).drawCount = s.drawCount + 1 ∧
    ∀ reg, isErrorPanel (render reg (settle s (.failure m))) = true ↔ m ≠ some "" := by
  have ht := settle_failure s m hq hr hl
  have hw2 : (settle s (.failure m)).props.width ≠ 0 := by rw [ht]; exact hr.1
  have hh2 : (settle s (.failure m)).props.height ≠ 0 := by rw [ht]; exact hr.2.1
  have he2 : (settle s (.failure m)).renderError = m.getD "Unknown error." := by rw [ht]
  refine ⟨he2, by rw [ht], ?_⟩
  intro reg
  by_cases he : m.getD "Unknown error." = ""
  · rw [render_eq_chart reg _ hw2 hh2 (he2.trans he)]
    have hm : m = some "" := by
      cases m with
      | none => exact absurd he (by decide)
      | some x =>
        simp only [Option.getD] at he
        exact congrArg some he
    simp [isErrorPanel, hm]
  · rw [render_eq_errorPanel reg _ hw2 hh2 (by rw [he2]; exact he)]
    have hm : m ≠ some "" := by
      intro hcon
      rw [hcon] at he
      exact he rfl
    simp [isErrorPanel, hm]

/-- Witness for the amended C4 at a fresh mount whose draw raises without a message. -/
theorem c4_failure_message_witness :
    (¬ Quiescent (initState sampleInputs)) ∧ RefsPresent (initState sampleInputs) ∧
    (initState sampleInputs).props.chartData.log.length ≠ 0 ∧
    ((settle (initState sampleInputs) (.failure none)).renderError =
        Option.getD none "Unknown error." ∧
      (settle (initState sampleInputs) (.failure none)).drawCount =
        (initState sampleInputs).drawCount + 1 ∧
      ∀ reg, isErrorPanel (render reg (settle (initState sampleInputs) (.failure none))) =
        true ↔ none ≠ some "") :=
  ⟨by decide, by decide, by decide,
    c4_failure_message (initState sampleInputs) none (by decide) (by decide) (by decide)⟩

theorem string_append_assoc (a b c : String) : a ++ b ++ c = a ++ (b ++ c) := by
  apply String.ext
  simp [String.data_append]

/-- Rewrites the retry label of the source (`Retry` plus an optional
parenthesised count) into the two spec-side forms. -/
theorem retryLabel_eq (n : Nat) :
    "Retry" ++ (if n ≠ 0 then " (" ++ toString n ++ ")" else "") =
      (if n = 0 then "Retry" else "Retry (" ++ toString n ++ ")") := by
  by_cases h : n = 0
  · rw [if_pos h, if_neg (by simp [h])]
    exact String.append_empty _
  · rw [if_neg h, if_pos (by simpa using h)]
    rw [← string_append_assoc, ← string_append_assoc]
    rw [show "Retry" ++ " (" = "Retry (" from by decide]

/-- A settled state whose committed output is the error panel and whose inputs
satisfy the draw preconditions: the shape of the state after a failed draw on a
valid model and viewport. -/
def FailedGood (s : MState) : Prop :=
  Quiescent s ∧ s.props.width ≠ 0 ∧ s.props.height ≠ 0 ∧
    s.props.chartData.log.length ≠ 0 ∧ s.renderError ≠ ""

instance (s : MState) : Decidable (FailedGood s) := by
  unfold FailedGood; infer_instance

/-- One user retry whose re-draw fails again with message `m`. -/
def retryFail (m : String) (t : MState) : MState :=
  step t (Event.retryClick (DrawOutcome.failure (some m)))

theorem retryFail_eq (s : MState) (m : String) (hf : FailedGood s) :
    retryFail m s =
      { s with
        renderError := m
        errorRetry := s.errorRetry + 1
        lastDeps := some ⟨s.props, m⟩
        drawCount := s.drawCount + 1
        drawLog := s.drawLog ++ [mkDrawCall s] } := by
  obtain ⟨hq, hw, hh, hl, he⟩ := hf
  unfold retryFail
  simp only [step]
  rw [if_pos (show ErrorPanelShown s from ⟨hw, hh, he⟩)]
  have hq2 : ¬ Quiescent { s with errorRetry := s.errorRetry + 1, renderError := "" } := by
    unfold Quiescent currentDeps at hq ⊢
    dsimp only
    rw [hq]
    intro hcon
    rw [Option.some_inj, Deps.mk.injEq] at hcon
    exact he hcon.2
  have h2 := settle_failure { s with errorRetry := s.errorRetry + 1, renderError := "" }
    (some m) hq2 ⟨hw, hh, rfl⟩ hl
  rw [h2]
  rfl

theorem retryFail_iter (s : MState) (m : String) (hf : FailedGood s) (hm : m ≠ "") :
    ∀ n : Nat, FailedGood ((retryFail m)^[n] s) ∧
      ((retryFail m)^[n] s).errorRetry = s.errorRetry + n ∧
      ((retryFail m)^[n] s).props = s.props ∧
      (n ≠ 0 → ((retryFail m)^[n] s).renderError = m) := by
  intro n
  induction n with
  | zero => exact ⟨hf, rfl, rfl, fun h => absurd rfl h⟩
  | succ k ih =>
    obtain ⟨ihf, ihr, ihp, _⟩ := ih
    rw [Function.iterate_succ_apply', retryFail_eq _ m ihf]
    obtain ⟨ihq, ihw, ihh, ihl, ihe⟩ := ihf
    refine ⟨⟨?_, ihw, ihh, ihl, hm⟩, ?_, ihp, fun _ => rfl⟩
    · unfold Quiescent currentDeps
      dsimp only
    · dsimp only
      rw [ihr, Nat.add_assoc]

/-- C5: while the error state holds message `X`, the component renders the
full-area error panel with text `"Render Error: " ++ X`; after `n` consecutive
user retries that each failed again (starting from a first failure, retry count
`0`), the retry count is `n` and the button is labeled `"Retry"` for `n = 0`
and `"Retry (n)"` for `n > 0`. -/
theorem c5_error_panel_retry_label (reg : Registry) (s : MState) (m : String) (n : Nat)
    (hf : FailedGood s) (h0 : s.errorRetry = 0) (hm : m ≠ "") :
    ((retryFail m)^[n] s).errorRetry = n ∧
    render reg ((retryFail m)^[n] s) =
      RenderOutput.errorPanel ("Render Error: " ++ ((retryFail m)^[n] s).renderError)
        (if n = 0 then "Retry" else "Retry (" ++ toString n ++ ")") := by
  obtain ⟨hfn, hr, hp, _⟩ := retryFail_iter s m hf hm n
  have hrn : ((retryFail m)^[n] s).errorRetry = n := by rw [hr, h0, Nat.zero_add]
  obtain ⟨hqn, hwn, hhn, hln, hen⟩ := hfn
  refine ⟨hrn, ?_⟩
  rw [render_eq_errorPanel reg _ hwn hhn hen, hrn, retryLabel_eq n]

/-- A settled state right after a first failed draw (message "boom", no retries yet). -/
def failedState : MState :=
  { props := sampleInputs, renderError := "boom", errorRetry := 0
    lastDeps := some ⟨sampleInputs, "boom"⟩, drawCount := 1, drawLog := [] }

/-- Witness for C5: two consecutive failed retries from a first failure. -/
theorem c5_error_panel_retry_label_witness :
    FailedGood failedState ∧ failedState.errorRetry = 0 ∧ "again" ≠ "" ∧
    (((retryFail "again")^[2] failedState).errorRetry = 2 ∧
      render sampleRegistry ((retryFail "again")^[2] failedState) =
        RenderOutput.errorPanel
          ("Render Error: " ++ ((retryFail "again")^[2] failedState).renderError)
          (if 2 = 0 then "Retry" else "Retry (" ++ toString 2 ++ ")")) :=
  ⟨by decide, by decide, by decide,
    c5_error_panel_retry_label sampleRegistry failedState "again" 2
      (by decide) (by decide) (by decide)⟩

/-- C6: from the error-display state, a user retry whose re-draw succeeds
clears the error state and resets the retry count to zero, so the chart markup
(not the error panel) is committed again; the next failure (here: the first
failure after a subsequent input change) then shows the no-suffix "Retry"
button. -/
theorem c6_success_resets (reg : Registry) (s : MState) (i : Inputs) (m : String)
    (hf : FailedGood s) (hm : m ≠ "") (hi : GoodInputs i) (hne : i ≠ s.props) :
    (step s (Event.retryClick DrawOutcome.success)).renderError = "" ∧
    (step s (Event.retryClick DrawOutcome.success)).errorRetry = 0 ∧
    render reg (step s (Event.retryClick DrawOutcome.success)) =
      RenderOutput.chart (chartLabelsPure reg s.props.chartData.categoriesSorted)
        ⟨s.props.width, s.props.height, 0, 0⟩
        ⟨s.props.width - margins.left - margins.right,
         s.props.height - margins.top - margins.bottom, margins.top, margins.left⟩ ∧
    render reg (step (step s (Event.retryClick DrawOutcome.success))
        (Event.inputsChange i (DrawOutcome.failure (some m)))) =
      RenderOutput.errorPanel ("Render Error: " ++ m) "Retry" := by
  obtain ⟨hq, hw, hh, hl, he⟩ := hf
  have hstep1 : step s (Event.retryClick DrawOutcome.success) =
      { s with
        renderError := ""
        errorRetry := 0
        lastDeps := some ⟨s.props, ""⟩
        drawCount := s.drawCount + 1
        drawLog := s.drawLog ++ [mkDrawCall s] } := by
    simp only [step]
    rw [if_pos (show ErrorPanelShown s from ⟨hw, hh, he⟩)]
    have hq2 : ¬ Quiescent { s with errorRetry := s.errorRetry + 1, renderError := "" } := by
      unfold Quiescent currentDeps at hq ⊢
      dsimp only
      rw [hq]
      intro hcon
      rw [Option.some_inj, Deps.mk.injEq] at hcon
      exact he hcon.2
    have h2 := settle_success { s with errorRetry := s.errorRetry + 1, renderError := "" }
      hq2 ⟨hw, hh, rfl⟩ hl
    rw [h2]
    rfl
  rw [hstep1]
  refine ⟨rfl, rfl, render_eq_chart reg _ hw hh rfl, ?_⟩
  have hq3 : ¬ Quiescent
      { props := i, renderError := "", errorRetry := 0, lastDeps := some ⟨s.props, ""⟩,
        drawCount := s.drawCount + 1, drawLog := s.drawLog ++ [mkDrawCall s] } := by
    unfold Quiescent currentDeps
    dsimp only
    intro hcon
    rw [Option.some_inj, Deps.mk.injEq] at hcon
    exact hne hcon.1.symm
  have hstep2 := settle_failure
    { props := i, renderError := "", errorRetry := 0, lastDeps := some ⟨s.props, ""⟩,
      drawCount := s.drawCount + 1, drawLog := s.drawLog ++ [mkDrawCall s] }
    (some m) hq3 ⟨hi.1, hi.2.1, rfl⟩ hi.2.2
  show render reg (settle _ _) = _
  rw [hstep2]
  have hfin := render_eq_errorPanel reg
    { props := i, renderError := m, errorRetry := 0, lastDeps := some ⟨i, m⟩,
      drawCount := s.drawCount + 2,
      drawLog := (s.drawLog ++ [mkDrawCall s]) ++ [DrawCall.mk i.width i.height margins
        i.isDarkMode i.chartData] }
    hi.1 hi.2.1 hm
  rw [show ("Retry" ++ (if (0 : Nat) ≠ 0 then " (" ++ toString (0 : Nat) ++ ")" else "")) =
    "Retry" from by decide] at hfin
  exact hfin

def altInputs : Inputs :=
  { chartData := sampleData, width := 1024, height := 768, isDarkMode := true }

/-- Witness for C6: a retry that succeeds, then a failing draw after a resize. -/
theorem c6_success_resets_witness :
    FailedGood failedState ∧ "oops" ≠ "" ∧ GoodInputs altInputs ∧
    altInputs ≠ failedState.props ∧
    ((step failedState (Event.retryClick DrawOutcome.success)).renderError = "" ∧
      (step failedState (Event.retryClick DrawOutcome.success)).errorRetry = 0 ∧
      render sampleRegistry (step failedState (Event.retryClick DrawOutcome.success)) =
        RenderOutput.chart
          (chartLabelsPure sampleRegistry failedState.props.chartData.categoriesSorted)
          ⟨failedState.props.width, failedState.props.height, 0, 0⟩
          ⟨failedState.props.width - margins.left - margins.right,
           failedState.props.height - margins.top - margins.bottom,
           margins.top, margins.left⟩ ∧
      render sampleRegistry (step (step failedState (Event.retryClick DrawOutcome.success))
          (Event.inputsChange altInputs (DrawOutcome.failure (some "oops")))) =
        RenderOutput.errorPanel ("Render Error: " ++ "oops") "Retry") :=
  ⟨by decide, by decide, by decide, by decide,
    c6_success_resets sampleRegistry failedState altInputs "oops"
      (by decide) (by decide) (by decide) (by decide)⟩

/-- C7: the legend renders exactly one row per category, in exactly the reverse
of the given `categoriesSorted` order; each row carries the category's color,
border and label from the registry and an empty value slot keyed by the
category identifier; an empty list renders nothing. -/
theorem c7_legend_reversed (reg : Registry) (h : Heap) (r : Nat) :
    ((∀ c ∈ h.get r, (reg c).isSome) → ∃ rows, (chartLabels reg h r).2 = some rows) ∧
    (∀ rows, (chartLabels reg h r).2 = some rows →
      rows.map LegendRow.key = (h.get r).reverse ∧
      (∀ row ∈ rows, reg row.key = some ⟨row.label, row.swatchColor, row.swatchBorder⟩ ∧
        row.valueSlotKey = row.key) ∧
      (h.get r = [] → rows = [])) := by
  have hrows : (chartLabels reg h r).2 = mapRows reg (h.get r).reverse := by
    unfold chartLabels
    dsimp only
    rw [chartLabels_copy_contents]
  constructor
  · intro hall
    obtain ⟨rows, hsome, -, -⟩ :=
      mapRows_total reg (h.get r).reverse (fun c hc => hall c (List.mem_reverse.mp hc))
    exact ⟨rows, by rw [hrows, hsome]⟩
  · intro rows hsome
    rw [hrows] at hsome
    obtain ⟨hkeys, hfields⟩ := mapRows_eq_some reg _ rows hsome
    refine ⟨hkeys, hfields, ?_⟩
    intro hnil
    rw [hnil] at hkeys
    exact List.map_eq_nil_iff.mp hkeys

def legendHeap : Heap := ⟨[["afk", "ban", "idle"]]⟩

def legendRegistry : Registry := fun c =>
  if c = "afk" then some ⟨"AFK", "#ca", "#ba"⟩
  else if c = "ban" then some ⟨"Banned", "#cb", "#bb"⟩
  else if c = "idle" then some ⟨"Idle", "#ci", "#bi"⟩
  else none

/-- Witness for C7 on the spec's example list. -/
theorem c7_legend_reversed_witness :
    (∀ c ∈ legendHeap.get 0, (legendRegistry c).isSome) ∧
    (∃ rows, (chartLabels legendRegistry legendHeap 0).2 = some rows) ∧
    ((chartLabels legendRegistry legendHeap 0).2 =
      some [rowFor "idle" ⟨"Idle", "#ci", "#bi"⟩, rowFor "ban" ⟨"Banned", "#cb", "#bb"⟩,
        rowFor "afk" ⟨"AFK", "#ca", "#ba"⟩]) ∧
    (∀ rows, (chartLabels legendRegistry legendHeap 0).2 = some rows →
      rows.map LegendRow.key = (legendHeap.get 0).reverse ∧
      (∀ row ∈ rows,
        legendRegistry row.key = some ⟨row.label, row.swatchColor, row.swatchBorder⟩ ∧
        row.valueSlotKey = row.key) ∧
      (legendHeap.get 0 = [] → rows = [])) :=
  ⟨by decide, (c7_legend_reversed legendRegistry legendHeap 0).1 (by decide), by decide,
    (c7_legend_reversed legendRegistry legendHeap 0).2⟩

/-- C8: whenever the chart branch is rendered, the canvas (raster surface)
measures exactly `(width - margins.left - margins.right,
height - margins.top - margins.bottom)` and sits at offset
`(margins.left, margins.top)`, while the svg (vector surface) fills the full
`(width, height)` box at the origin. -/
theorem c8_canvas_geometry (reg : Registry) (s : MState) (legend : Option (List LegendRow))
    (svg canvas : SurfaceSpec)
    (h : render reg s = RenderOutput.chart legend svg canvas) :
    canvas.width = s.props.width - margins.left - margins.right ∧
    canvas.height = s.props.height - margins.top - margins.bottom ∧
    canvas.top = margins.top ∧ canvas.left = margins.left ∧
    svg.width = s.props.width ∧ svg.height = s.props.height ∧
    svg.top = 0 ∧ svg.left = 0 := by
  unfold render at h
  by_cases h0 : s.props.width = 0 ∨ s.props.height = 0
  · rw [if_pos h0] at h
    cases h
  · rw [if_neg h0] at h
    by_cases he : s.renderError ≠ ""
    · rw [if_pos he] at h
      cases h
    · rw [if_neg he] at h
      rw [RenderOutput.chart.injEq] at h
      obtain ⟨-, hsvg, hcv⟩ := h
      rw [← hsvg, ← hcv]
      exact ⟨rfl, rfl, rfl, rfl, rfl, rfl, rfl, rfl⟩

/-- Witness for C8 on the sample 800x600 viewport: the canvas is 750x568 at
offset (42, 8). -/
theorem c8_canvas_geometry_witness :
    (render sampleRegistry quietState =
      RenderOutput.chart (chartLabelsPure sampleRegistry sampleData.categoriesSorted)
        ⟨800, 600, 0, 0⟩ ⟨750, 568, 8, 42⟩) ∧
    ((750 : Int) = quietState.props.width - margins.left - margins.right ∧
      (568 : Int) = quietState.props.height - margins.top - margins.bottom ∧
      (8 : Int) = margins.top ∧ (42 : Int) = margins.left ∧
      (800 : Int) = quietState.props.width ∧ (600 : Int) = quietState.props.height ∧
      (0 : Int) = 0 ∧ (0 : Int) = 0) :=
  ⟨by decide,
    c8_canvas_geometry sampleRegistry quietState
      (chartLabelsPure sampleRegistry sampleData.categoriesSorted)
      ⟨800, 600, 0, 0⟩ ⟨750, 568, 8, 42⟩ (by decide)⟩

/-- C9: a category identifier with no entry in the metadata registry makes the
legend render raise (the JS property access on `undefined` throws) instead of
silently producing a blank row: the whole row list is `none`. -/
theorem c9_missing_category_raises (reg : Registry) (h : Heap) (r : Nat) (c : String)
    (hc : c ∈ h.get r) (hmiss : reg c = none) :
    (chartLabels reg h r).2 = none := by
  have hrows : (chartLabels reg h r).2 = mapRows reg (h.get r).reverse := by
    unfold chartLabels
    dsimp only
    rw [chartLabels_copy_contents]
  rw [hrows]
  exact mapRows_none_of_missing reg _ c (List.mem_reverse.mpr hc) hmiss

/-- Witness for C9: the registry lacking "unknown-cat" makes the render raise. -/
theorem c9_missing_category_raises_witness :
    "unknown-cat" ∈ (Heap.mk [["afk", "unknown-cat"]]).get 0 ∧
    legendRegistry "unknown-cat" = none ∧
    (chartLabels legendRegistry (Heap.mk [["afk", "unknown-cat"]]) 0).2 = none :=
  ⟨by decide, by decide,
    c9_missing_category_raises legendRegistry (Heap.mk [["afk", "unknown-cat"]]) 0
      "unknown-cat" (by decide) (by decide)⟩

/-- C10: `ChartLabels` reverses a fresh copy made by `slice()`, so rendering
the legend leaves the caller's `categoriesSorted` array unchanged on the heap. -/
theorem c10_input_array_unchanged (reg : Registry) (h : Heap) (r : Nat)
    (hr : r < h.arrs.length) :
    ((chartLabels reg h r).1).get r = h.get r := by
  unfold chartLabels
  dsimp only
  exact chartLabels_heap_frame h r r hr

/-- Witness for C10 on the sample legend heap. -/
theorem c10_input_array_unchanged_witness :
    0 < legendHeap.arrs.length ∧
    ((chartLabels legendRegistry legendHeap 0).1).get 0 = legendHeap.get 0 :=
  ⟨by decide, c10_input_array_unchanged legendRegistry legendHeap 0 (by decide)⟩
